import Mathlib

/-!
# Verification of the SkillGate Risk Assessment & Governance State Engine

A shallow embedding of the core of `openclaw-skillgate` (TypeScript) in
Lean 4, with theorems settling the frozen claims about its specification.

Embedded modules:
* `src/core/scan.ts` — severities, rules, findings, scanner;
* `src/core/decision.ts` — scoring, combo detection, level determination;
* `src/core/redaction.ts` / `src/core/evidence.ts` — redaction and evidence;
* `src/core/utils.ts` — atomic-write discipline (modelled as an
  operation trace);
* `src/core/actions.ts` — governance store mutations;
* `src/commands/gov_quarantine.ts`, `gov_restore.ts`, `gov_allow.ts` —
  command-level flows, with the external collaborators (discovery, scanning
  file system, authorization prompt, the SHA-256 primitive from
  `node:crypto`, and JSON serialization) passed in as explicit parameters.

JavaScript numbers in this code are only ever non-negative integers
(severity weights, score bonuses, line numbers, lengths), so they are
modelled as `Nat`.
-/

namespace SkillGate

/-! ## Severities, findings and rules (`src/core/scan.ts`) -/

/-- `Severity` from scan.ts: `'CRITICAL' | 'HIGH' | 'MEDIUM' | 'LOW' | 'INFO'`. -/
inductive Severity where
  | CRITICAL
  | HIGH
  | MEDIUM
  | LOW
  | INFO
deriving DecidableEq, Repr

/-- A `Finding` from scan.ts. The TypeScript field `match` is a Lean
keyword, so it is named `matchText` here. The optional `column` field is
never written by the scanner and never read, so it is omitted. -/
structure Finding where
  rule : String
  severity : Severity
  file : String
  line : Nat
  matchText : String
  description : String
deriving DecidableEq, Repr

/-- A detection `Rule` from scan.ts (the regex itself is kept as its
source text; matching is performed by the external JS regex engine and is
passed into the scanner model as data). -/
structure Rule where
  id : String
  severity : Severity
  pattern : String
  description : String
  fileTypes : Option (List String) := none
deriving DecidableEq, Repr

/-! ## Risk assessment (`src/core/decision.ts`) -/

/-- `RiskLevel` from decision.ts. -/
inductive RiskLevel where
  | CRITICAL
  | HIGH
  | MEDIUM
  | LOW
  | SAFE
deriving DecidableEq, Repr

/-- `RecommendedAction` from decision.ts. -/
inductive RecommendedAction where
  | quarantine
  | disable
  | warn
  | log
  | none
deriving DecidableEq, Repr

/-- `ComboMatch` from decision.ts. -/
structure ComboMatch where
  name : String
  description : String
  scoreBonus : Nat
  matchedRules : List String
deriving DecidableEq, Repr

/-- `RiskAssessment` from decision.ts. -/
structure RiskAssessment where
  level : RiskLevel
  score : Nat
  action : RecommendedAction
  reasons : List String
  combos : List ComboMatch
deriving DecidableEq, Repr

/-- `ComboDefinition` from decision.ts. -/
structure ComboDefinition where
  name : String
  description : String
  rules : List String
  minMatches : Nat
  scoreBonus : Nat
deriving DecidableEq, Repr

/-- `SEVERITY_WEIGHTS` from decision.ts. -/
def SEVERITY_WEIGHTS : Severity → Nat
  | .CRITICAL => 100
  | .HIGH => 50
  | .MEDIUM => 20
  | .LOW => 5
  | .INFO => 1

/-- `COMBOS` from decision.ts: the five fixed combo definitions. -/
def COMBOS : List ComboDefinition :=
  [ { name := "supply-chain-attack"
    , description := "Download + execute pattern detected"
    , rules := ["curl-pipe-bash", "wget-pipe-bash", "download-execute"]
    , minMatches := 1
    , scoreBonus := 100 }
  , { name := "obfuscated-execution"
    , description := "Obfuscated code with shell execution"
    , rules := ["obfuscated-code", "shell-exec", "base64-pipe-bash"]
    , minMatches := 2
    , scoreBonus := 80 }
  , { name := "credential-theft"
    , description := "Credential access with network exfiltration"
    , rules := ["hardcoded-token", "env-exfiltration", "network-request"]
    , minMatches := 2
    , scoreBonus := 70 }
  , { name := "destructive-payload"
    , description := "Destructive commands in install hook"
    , rules := ["rm-rf-root", "install-download", "metadata-install-download"]
    , minMatches := 1
    , scoreBonus := 100 }
  , { name := "install-hook-risky"
    , description := "Install hook with shell/network access"
    , rules := ["install-download", "metadata-install-download", "shell-exec"]
    , minMatches := 2
    , scoreBonus := 40 } ]

/-- Display name of a severity, as JS string interpolation renders it. -/
def severityName : Severity → String
  | .CRITICAL => "CRITICAL"
  | .HIGH => "HIGH"
  | .MEDIUM => "MEDIUM"
  | .LOW => "LOW"
  | .INFO => "INFO"

/-- Display name of a risk level. -/
def riskLevelName : RiskLevel → String
  | .CRITICAL => "CRITICAL"
  | .HIGH => "HIGH"
  | .MEDIUM => "MEDIUM"
  | .LOW => "LOW"
  | .SAFE => "SAFE"

/-- The reason line pushed for a CRITICAL/HIGH finding in `assessRisk`:
`` `${finding.severity}: ${finding.description} (${finding.file}:${finding.line})` ``. -/
def findingReason (f : Finding) : String :=
  severityName f.severity ++ ": " ++ f.description ++ " (" ++ f.file ++ ":"
    ++ toString f.line ++ ")"

/-- The first loop of `assessRisk`: base score accumulated over findings. -/
def baseScoreOf (findings : List Finding) : Nat :=
  findings.foldl (fun acc f => acc + SEVERITY_WEIGHTS f.severity) 0

/-- The first loop of `assessRisk`: reason lines collected for every
CRITICAL or HIGH finding, in input order. -/
def baseReasonsOf (findings : List Finding) : List String :=
  findings.foldl
    (fun acc f =>
      if f.severity = .CRITICAL ∨ f.severity = .HIGH then acc ++ [findingReason f]
      else acc)
    []

/-- `new Set(findings.map((f) => f.rule))` from `assessRisk`: the JS Set is
modelled by this list, with `Set.has` as list membership. -/
def matchedRulesOf (findings : List Finding) : List String :=
  findings.map (fun f => f.rule)

/-- One iteration of the combo loop of `assessRisk`, threading the
accumulated `(combos, score, reasons)` triple. -/
def comboStep (matchedRules : List String)
    (acc : List ComboMatch × Nat × List String) (combo : ComboDefinition) :
    List ComboMatch × Nat × List String :=
  let matchedComboRules := combo.rules.filter (fun r => matchedRules.contains r)
  if combo.minMatches ≤ matchedComboRules.length then
    ( acc.1 ++ [{ name := combo.name
                , description := combo.description
                , scoreBonus := combo.scoreBonus
                , matchedRules := matchedComboRules }]
    , acc.2.1 + combo.scoreBonus
    , acc.2.2 ++ ["COMBO: " ++ combo.description] )
  else acc

/-- `determineLevel` from decision.ts: risk level and recommended action
from the final score and the findings. -/
def determineLevel (score : Nat) (findings : List Finding) :
    RiskLevel × RecommendedAction :=
  if findings.any (fun f => f.severity = .CRITICAL) ∨ 200 ≤ score then
    (.CRITICAL, .quarantine)
  else if 2 ≤ (findings.filter (fun f => f.severity = .HIGH)).length ∨ 100 ≤ score then
    (.HIGH, .disable)
  else if 1 ≤ (findings.filter (fun f => f.severity = .HIGH)).length ∨ 40 ≤ score then
    (.MEDIUM, .warn)
  else if 0 < score then
    (.LOW, .log)
  else
    (.SAFE, .none)

/-- `assessRisk` from decision.ts. -/
def assessRisk (findings : List Finding) : RiskAssessment :=
  let baseScore := baseScoreOf findings
  let reasons := baseReasonsOf findings
  let matchedRules := matchedRulesOf findings
  let folded := COMBOS.foldl (comboStep matchedRules) ([], baseScore, reasons)
  let combos := folded.1
  let score := folded.2.1
  let allReasons := folded.2.2
  let la := determineLevel score findings
  { level := la.1
  , score := score
  , action := la.2
  , reasons := allReasons.take 10
  , combos := combos }

/-- `shouldAutoQuarantine` from decision.ts. -/
def shouldAutoQuarantine (assessment : RiskAssessment) : Bool :=
  assessment.level = .CRITICAL

/-- `shouldAutoDisable` from decision.ts. -/
def shouldAutoDisable (assessment : RiskAssessment) : Bool :=
  assessment.level = .HIGH

/-! ## Skills and scan results (`src/core/discover.ts`, `src/core/scan.ts`) -/

/-- `SkillSource` from discover.ts. -/
inductive SkillSource where
  | workspace
  | managed
  | extraDirs
deriving DecidableEq, Repr

/-- The `openclaw` block of `SkillMetadata` from discover.ts. -/
structure OpenClawMeta where
  skillKey : Option String := none
  install : Option String := none
deriving DecidableEq, Repr

/-- `SkillMetadata` from discover.ts. -/
structure SkillMetadata where
  name : Option String := none
  version : Option String := none
  description : Option String := none
  openclaw : Option OpenClawMeta := none
deriving DecidableEq, Repr

/-- `DiscoveredSkill` from discover.ts. -/
structure DiscoveredSkill where
  skillKey : String
  path : String
  source : SkillSource
  metadata : Option SkillMetadata := none
deriving DecidableEq, Repr

/-- `ScanResult` from scan.ts. -/
structure ScanResult where
  skill : DiscoveredSkill
  findings : List Finding
  scannedFiles : Nat
  scanDuration : Nat
deriving DecidableEq, Repr

/-! ## Redaction and evidence (`src/core/redaction.ts`, `src/core/evidence.ts`)

The SHA-256 primitive comes from `node:crypto`, outside this repository;
it is passed in as an explicit function parameter `sha256`, so every
theorem below holds for the real hash in particular. -/

/-- `RedactedContent` from redaction.ts. -/
structure RedactedContent where
  redacted : Bool
  hash : String
  originalLength : Nat
deriving DecidableEq, Repr

/-- `redactSnippet` from redaction.ts. -/
def redactSnippet (sha256 : String → String) (snippet : String) : RedactedContent :=
  { redacted := true
  , hash := "sha256:" ++ sha256 snippet
  , originalLength := snippet.length }

/-- `hashContent` from redaction.ts. -/
def hashContent (sha256 : String → String) (content : String) : String :=
  "sha256:" ++ sha256 content

/-- `RedactedFinding` from evidence.ts. The TS `severity: string` always
holds a value of the `Severity` union, so the inductive type is kept. -/
structure RedactedFinding where
  rule : String
  severity : Severity
  file : String
  line : Nat
  description : String
  snippet_redacted : Bool
  snippet_hash : String
  redaction_applied : Bool
deriving DecidableEq, Repr

/-- `Evidence` from evidence.ts. `riskLevel`/`recommendedAction` are TS
strings always drawn from the corresponding unions. -/
structure Evidence where
  id : String
  skillKey : String
  skillPath : String
  scanTimestamp : String
  riskLevel : RiskLevel
  riskScore : Nat
  recommendedAction : RecommendedAction
  findings : List RedactedFinding
  combos : List String
  scannedFiles : Nat
  scanDuration : Nat
deriving DecidableEq, Repr

/-- The body of the `scanResult.findings.map((f) => ...)` in
`generateEvidence` from evidence.ts. -/
def redactFinding (sha256 : String → String) (f : Finding) : RedactedFinding :=
  let snippetRedaction := redactSnippet sha256 f.matchText
  { rule := f.rule
  , severity := f.severity
  , file := f.file
  , line := f.line
  , description := f.description
  , snippet_redacted := true
  , snippet_hash := snippetRedaction.hash
  , redaction_applied := true }

/-- `generateEvidence` from evidence.ts. The fresh id from
`generateEvidenceId()` and the `nowISO()` timestamp are generated
externally and passed in. -/
def generateEvidence (sha256 : String → String) (scanResult : ScanResult)
    (assessment : RiskAssessment) (freshId now : String) : Evidence :=
  { id := freshId
  , skillKey := scanResult.skill.skillKey
  , skillPath := scanResult.skill.path
  , scanTimestamp := now
  , riskLevel := assessment.level
  , riskScore := assessment.score
  , recommendedAction := assessment.action
  , findings := scanResult.findings.map (redactFinding sha256)
  , combos := assessment.combos.map (fun c => c.name)
  , scannedFiles := scanResult.scannedFiles
  , scanDuration := scanResult.scanDuration }

/-! ## File-system operation traces (`src/core/utils.ts`, `saveEvidence`)

The write discipline of `atomicWriteJson` and `saveEvidence` is modelled
as the sequence of file-system calls each function issues. -/

/-- One file-system call issued by the persistence layer. -/
inductive FsOp where
  | mkdirRec (path : String)
  | writeFileOp (path content : String)
  | renameOp (src dst : String)
deriving DecidableEq, Repr

/-- Whether a file-system call is a `rename`. -/
def FsOp.isRename : FsOp → Bool
  | .renameOp _ _ => true
  | _ => false

/-- `dirname` of a `/`-separated path, as `node:path` computes it for the
paths used here. -/
def dirnameOf (path : String) : String :=
  String.intercalate "/" ((path.splitOn "/").dropLast)

/-- `EVIDENCE_DIR` from utils.ts (`expandPath` keeps the leading `~`
symbolic in this model). -/
def EVIDENCE_DIR : String := "~/.openclaw/evidence"

/-- `OPENCLAW_CONFIG_PATH` from utils.ts. -/
def OPENCLAW_CONFIG_PATH : String := "~/.openclaw/openclaw.json"

/-- `atomicWriteJson` from utils.ts as its trace of file-system calls;
`tick` stands for `Date.now()` in the temp-file name and `content` for
`JSON.stringify(data, null, 2)`. -/
def atomicWriteJsonOps (filepath content : String) (tick : Nat) : List FsOp :=
  [ .mkdirRec (dirnameOf filepath)
  , .writeFileOp (filepath ++ ".tmp." ++ toString tick) content
  , .renameOp (filepath ++ ".tmp." ++ toString tick) filepath ]

/-- `saveEvidence` from evidence.ts as its trace of file-system calls;
`serializeEvidence` stands for `JSON.stringify(evidence, null, 2)`. -/
def saveEvidenceOps (serializeEvidence : Evidence → String) (ev : Evidence) :
    List FsOp :=
  [ .mkdirRec EVIDENCE_DIR
  , .writeFileOp (EVIDENCE_DIR ++ "/" ++ ev.id ++ ".json") (serializeEvidence ev) ]

/-! ## Governance store (`src/core/actions.ts`)

The persisted config document `{skills?: {dirs?, entries?}, [key]: unknown}`
is modelled structurally; entries are an association list (JS object keys
are unique, lookups take the first binding). Unknown extra keys, which the
code never inspects, are carried as opaque string pairs. -/

/-- `QuarantineInfo` from actions.ts. -/
structure QuarantineInfo where
  timestamp : String
  reason : String
  evidenceId : String
  backupPath : Option String := none
deriving DecidableEq, Repr

/-- `SkillEntry` from actions.ts; `extra` carries the `[key: string]: unknown`
index-signature keys the code never touches. -/
structure SkillEntry where
  enabled : Option Bool := none
  path : Option String := none
  _quarantine : Option QuarantineInfo := none
  _allowlisted : Option Bool := none
  extra : List (String × String) := []
deriving DecidableEq, Repr

/-- The `skills` subtree of `OpenClawConfig` from actions.ts. -/
structure SkillsSection where
  dirs : Option (List String) := none
  entries : Option (List (String × SkillEntry)) := none
deriving DecidableEq, Repr

/-- `OpenClawConfig` from actions.ts; `extra` carries the unrelated
top-level keys of the document. -/
structure OpenClawConfig where
  skills : Option SkillsSection := none
  extra : List (String × String) := []
deriving DecidableEq, Repr

/-- `config.skills?.entries?.[skillKey]`: optional-chaining lookup. -/
def lookupEntry (config : OpenClawConfig) (skillKey : String) : Option SkillEntry :=
  (config.skills.bind (fun s => s.entries)).bind
    (fun es => (es.find? (fun p => p.1 = skillKey)).map (fun p => p.2))

/-- The entries object after `if (!config.skills) ...; if (!config.skills.entries) ...`
initialization. -/
def entriesOf (config : OpenClawConfig) : List (String × SkillEntry) :=
  (config.skills.bind (fun s => s.entries)).getD []

/-- JS object update `entries[key] = e`: replaces the binding when the key
exists, appends otherwise. -/
def setEntry (es : List (String × SkillEntry)) (key : String) (e : SkillEntry) :
    List (String × SkillEntry) :=
  if es.any (fun p => p.1 = key) then
    es.map (fun p => if p.1 = key then (key, e) else p)
  else es ++ [(key, e)]

/-- Writes the (now initialized) entries object back into the document,
keeping `skills.dirs` and every other top-level key. -/
def setConfigEntries (config : OpenClawConfig)
    (es : List (String × SkillEntry)) : OpenClawConfig :=
  let s := config.skills.getD {}
  { config with skills := some { s with entries := some es } }

/-- `QuarantineResult` from actions.ts. -/
structure QuarantineResult where
  success : Bool
  skillKey : String
  backupPath : Option String := none
  configUpdated : Bool
  message : String
deriving DecidableEq, Repr

/-- `RestoreResult` from actions.ts. -/
structure RestoreResult where
  success : Bool
  skillKey : String
  configUpdated : Bool
  message : String
deriving DecidableEq, Repr

/-- The empty entry a JS spread of `undefined` yields in
`{...config.skills.entries[skill.skillKey], ...}`. -/
def emptyEntry : SkillEntry := {}

/-- `quarantineSkill` from actions.ts, store mutation part. The backup
phase touches only the backup directory (best-effort copies, failures
skipped); its resulting `backupPath` and the `nowISO()` timestamp are
passed in. `skillKey` is `skill.skillKey` and `evidenceId` is `evidence.id`. -/
def quarantineSkill (skillKey evidenceId reason timestamp backupPath : String)
    (config : OpenClawConfig) : QuarantineResult × OpenClawConfig :=
  let old := (lookupEntry config skillKey).getD emptyEntry
  let newEntry : SkillEntry :=
    { old with
      enabled := some false
    , _quarantine := some
        { timestamp := timestamp
        , reason := reason
        , evidenceId := evidenceId
        , backupPath := some backupPath } }
  let config2 := setConfigEntries config (setEntry (entriesOf config) skillKey newEntry)
  ( { success := true
    , skillKey := skillKey
    , backupPath := some backupPath
    , configUpdated := true
    , message := "Quarantined \"" ++ skillKey ++ "\". Changes take effect after restart." }
  , config2 )

/-- `restoreSkill` from actions.ts. -/
def restoreSkill (skillKey : String) (config : OpenClawConfig) :
    RestoreResult × OpenClawConfig :=
  match lookupEntry config skillKey with
  | none =>
    ( { success := false
      , skillKey := skillKey
      , configUpdated := false
      , message := "Skill \"" ++ skillKey ++ "\" not found in config" }
    , config )
  | some entry =>
    match entry._quarantine with
    | none =>
      ( { success := false
        , skillKey := skillKey
        , configUpdated := false
        , message := "Skill \"" ++ skillKey ++ "\" is not quarantined" }
      , config )
    | some _ =>
      let newEntry : SkillEntry := { entry with _quarantine := none, enabled := some true }
      let config2 := setConfigEntries config (setEntry (entriesOf config) skillKey newEntry)
      ( { success := true
        , skillKey := skillKey
        , configUpdated := true
        , message := "Restored \"" ++ skillKey ++ "\". Changes take effect after restart." }
      , config2 )

/-- `disableSkill` from actions.ts (the `_reason` parameter is unused in
the source and omitted). -/
def disableSkill (skillKey : String) (config : OpenClawConfig) :
    QuarantineResult × OpenClawConfig :=
  let old := (lookupEntry config skillKey).getD emptyEntry
  let newEntry : SkillEntry := { old with enabled := some false }
  let config2 := setConfigEntries config (setEntry (entriesOf config) skillKey newEntry)
  ( { success := true
    , skillKey := skillKey
    , backupPath := none
    , configUpdated := true
    , message := "Disabled \"" ++ skillKey ++ "\". Changes take effect after restart." }
  , config2 )

/-- `allowlistSkill` from actions.ts. -/
def allowlistSkill (skillKey : String) (config : OpenClawConfig) :
    RestoreResult × OpenClawConfig :=
  let old := (lookupEntry config skillKey).getD emptyEntry
  let newEntry : SkillEntry := { old with enabled := some true, _allowlisted := some true }
  let config2 := setConfigEntries config (setEntry (entriesOf config) skillKey newEntry)
  ( { success := true
    , skillKey := skillKey
    , configUpdated := true
    , message := "Allowlisted \"" ++ skillKey ++ "\". Future scans will skip this skill." }
  , config2 )

/-- `isAllowlisted` from actions.ts: `entry?._allowlisted === true`. -/
def isAllowlisted (skillKey : String) (config : OpenClawConfig) : Bool :=
  match (lookupEntry config skillKey).bind (fun e => e._allowlisted) with
  | some b => b
  | none => false

/-- `isQuarantined` from actions.ts: `entry?._quarantine || null`. -/
def isQuarantined (skillKey : String) (config : OpenClawConfig) :
    Option QuarantineInfo :=
  (lookupEntry config skillKey).bind (fun e => e._quarantine)

/-- `getSkillStatus` from actions.ts. -/
def getSkillStatus (skillKey : String) (config : OpenClawConfig) :
    Option SkillEntry :=
  lookupEntry config skillKey

/-- `loadOrCreateConfig` from actions.ts: `config || {}` over the
`readJson5Config` result (`null` on a missing or unreadable document). -/
def loadOrCreateConfig (stored : Option OpenClawConfig) : OpenClawConfig :=
  stored.getD {}

/-! ## String helpers for the scanner (JS built-ins, on code points)

The scanned fixture contents are ASCII, where JS UTF-16 indexing and the
code-point indexing below agree. -/

/-- JS `String.prototype.toLowerCase`. -/
def lowerStr (s : String) : String :=
  String.mk (s.toList.map Char.toLower)

/-- Whether `pattern` starts `text` (helper for `strIncludes`). -/
def leadsWith : List Char → List Char → Bool
  | [], _ => true
  | _ :: _, [] => false
  | a :: as, b :: bs => a == b && leadsWith as bs

/-- Whether `pattern` occurs somewhere in `text` (helper for `strIncludes`). -/
def occursInChars (pattern : List Char) : List Char → Bool
  | [] => leadsWith pattern []
  | b :: bs => leadsWith pattern (b :: bs) || occursInChars pattern bs

/-- JS `String.prototype.includes`. -/
def strIncludes (s sub : String) : Bool :=
  occursInChars sub.toList s.toList

/-! ## Scanner (`src/core/scan.ts`)

Regex matching is performed by the external JS regex engine; the matches
each rule's pattern produces on a file's content are passed in as data
(`RegexMatch` carrying `match.index` and `match[0]`). -/

/-- `DEFAULT_RULES` from scan.ts: the fixed, ordered rule table. Patterns
are kept as their regex source text. -/
def DEFAULT_RULES : List Rule :=
  [ { id := "curl-pipe-bash", severity := .CRITICAL
    , pattern := "curl\\s+[^\\n]*\\|\\s*(bash|sh|zsh)"
    , description := "Remote code execution via curl pipe to shell" }
  , { id := "wget-pipe-bash", severity := .CRITICAL
    , pattern := "wget\\s+[^\\n]*\\|\\s*(bash|sh|zsh)"
    , description := "Remote code execution via wget pipe to shell" }
  , { id := "base64-pipe-bash", severity := .CRITICAL
    , pattern := "base64\\s+(-d|--decode)[^\\n]*\\|\\s*(bash|sh|zsh)"
    , description := "Obfuscated code execution via base64 decode" }
  , { id := "rm-rf-root", severity := .CRITICAL
    , pattern := "rm\\s+-rf\\s+(\\/|~\\/|\\$HOME)"
    , description := "Destructive command targeting root or home directory" }
  , { id := "eval-remote", severity := .CRITICAL
    , pattern := "eval\\s*\\(\\s*(fetch|axios|http|request)\\s*\\("
    , description := "Eval of remotely fetched content" }
  , { id := "download-execute", severity := .HIGH
    , pattern := "(download|fetch|request)\\s*\\([^)]*\\)\\s*\\.\\s*then\\s*\\([^)]*\\)\\s*\\.\\s*(exec|spawn|eval)"
    , description := "Download and execute pattern" }
  , { id := "env-exfiltration", severity := .HIGH
    , pattern := "process\\.env\\s*\\[?\\s*[\x27\"][^\x27\"]+[\x27\"]\\s*\\]?\\s*\\+\\s*(fetch|axios|http|request)"
    , description := "Potential environment variable exfiltration" }
  , { id := "hardcoded-token", severity := .HIGH
    , pattern := "(api[_-]?key|secret|token|password)\\s*[:=]\\s*[\x27\"][A-Za-z0-9]\x7b20,\x7d[\x27\"]"
    , description := "Hardcoded secret or API key" }
  , { id := "shell-spawn-untrusted", severity := .HIGH
    , pattern := "(exec|spawn|execSync|spawnSync)\\s*\\(\\s*[\x60\x27\"]\\s*\\$\\\x7b"
    , description := "Shell command with template literal (potential injection)" }
  , { id := "install-download", severity := .HIGH
    , pattern := "\"install\"\\s*:\\s*[\"\x27].*\\b(curl|wget|download|fetch)\\b"
    , description := "Install hook downloads external content"
    , fileTypes := some [".json"] }
  , { id := "dynamic-require", severity := .MEDIUM
    , pattern := "require\\s*\\(\\s*[^\x27\"]"
    , description := "Dynamic require with non-literal argument" }
  , { id := "fs-write-root", severity := .MEDIUM
    , pattern := "writeFile(Sync)?\\s*\\(\\s*[\x27\"]\\/(?!tmp)"
    , description := "File write to root filesystem" }
  , { id := "network-listener", severity := .MEDIUM
    , pattern := "\\.(listen|createServer)\\s*\\("
    , description := "Creates network listener" }
  , { id := "obfuscated-code", severity := .MEDIUM
    , pattern := "\\\\x[0-9a-f]\x7b2\x7d.*\\\\x[0-9a-f]\x7b2\x7d.*\\\\x[0-9a-f]\x7b2\x7d"
    , description := "Potentially obfuscated code (hex escapes)" }
  , { id := "shell-exec", severity := .LOW
    , pattern := "(exec|spawn|execSync|spawnSync|child_process)"
    , description := "Uses shell execution" }
  , { id := "network-request", severity := .LOW
    , pattern := "(fetch|axios|request|http\\.get|https\\.get)"
    , description := "Makes network requests" }
  , { id := "file-system-access", severity := .LOW
    , pattern := "(readFile|writeFile|readdir|mkdir|unlink|rmdir)"
    , description := "Accesses file system" } ]

/-- One regex match as the JS engine reports it: `match.index` and the
matched text `match[0]`. -/
structure RegexMatch where
  index : Nat
  text : String
deriving DecidableEq, Repr

/-- The `rule.fileTypes && !rule.fileTypes.includes(ext)` skip in `scanFile`. -/
def ruleApplies (rule : Rule) (ext : String) : Bool :=
  match rule.fileTypes with
  | some fts => fts.contains ext
  | none => true

/-- The line-number computation in `scanFile`:
`content.slice(0, match.index).split('\n').length`, which is one more
than the number of newlines before the match offset. -/
def lineOfMatch (content : String) (idx : Nat) : Nat :=
  ((content.toList.take idx).filter (fun c => c = '\n')).length + 1

/-- The finding pushed for one regex match in `scanFile`
(`match[0].slice(0, 100)` truncates the matched text). -/
def findingOfMatch (rule : Rule) (relPath content : String) (m : RegexMatch) :
    Finding :=
  { rule := rule.id
  , severity := rule.severity
  , file := relPath
  , line := lineOfMatch content m.index
  , matchText := String.mk (m.text.toList.take 100)
  , description := rule.description }

/-- `scanFile` from scan.ts: all findings of one readable file.
`matchesFor` supplies the regex engine's matches per rule. (An unreadable
file yields no findings; that branch produces `[]` upstream.) -/
def scanFileFindings (relPath ext content : String)
    (matchesFor : Rule → List RegexMatch) : List Finding :=
  DEFAULT_RULES.foldl
    (fun acc rule =>
      if ruleApplies rule ext then
        acc ++ (matchesFor rule).map (findingOfMatch rule relPath content)
      else acc)
    []

/-- One candidate file enumerated by the `fast-glob` call in `scanSkill`. -/
structure SkillFile where
  relPath : String
  ext : String
  content : String

/-- The findings of `scanSkill` from scan.ts: per-file scan findings
followed by the metadata install-hook check. -/
def scanSkillFindings (skill : DiscoveredSkill) (files : List SkillFile)
    (matchesFor : SkillFile → Rule → List RegexMatch) : List Finding :=
  let fileFindings := files.foldl
    (fun acc file =>
      acc ++ scanFileFindings file.relPath file.ext file.content (matchesFor file))
    []
  match (skill.metadata.bind (fun m => m.openclaw)).bind (fun o => o.install) with
  | some installCmd =>
    let installLower := lowerStr installCmd
    if strIncludes installLower "download" || strIncludes installLower "curl"
        || strIncludes installLower "wget" then
      fileFindings ++
        [ { rule := "metadata-install-download"
          , severity := .HIGH
          , file := "skill.json"
          , line := 0
          , matchText := installCmd
          , description := "Install hook downloads external content" } ]
    else fileFindings
  | none => fileFindings

/-- `scanSkill` from scan.ts (`scanDuration` is wall-clock, external). -/
def scanSkill (skill : DiscoveredSkill) (files : List SkillFile)
    (matchesFor : SkillFile → Rule → List RegexMatch) (scanDuration : Nat) :
    ScanResult :=
  { skill := skill
  , findings := scanSkillFindings skill files matchesFor
  , scannedFiles := files.length
  , scanDuration := scanDuration }

/-! ## Command flows (`src/commands/gov_quarantine.ts`, `gov_restore.ts`,
`gov_allow.ts`)

The command layer's external collaborators — discovery, the scanning file
system, the authorization prompt — enter as parameters. The evidence
store is modelled as the list of saved records (each `saveEvidence` call
adds one document under a fresh id). -/

/-- The persistent state a governance command can touch. -/
structure GovState where
  config : OpenClawConfig
  evidences : List Evidence
deriving DecidableEq, Repr

/-- `GovQuarantineResult` from gov_quarantine.ts. -/
structure GovQuarantineResult where
  success : Bool
  skillKey : String
  message : String
  evidenceId : Option String := none
  backupPath : Option String := none
deriving DecidableEq, Repr

/-- `GovRestoreResult` from gov_restore.ts (the nested
`previousQuarantine` projection keeps the full block). -/
structure GovRestoreResult where
  success : Bool
  skillKey : String
  message : String
  previousQuarantine : Option QuarantineInfo := none
deriving DecidableEq, Repr

/-- `GovAllowResult` from gov_allow.ts. -/
structure GovAllowResult where
  success : Bool
  skillKey : String
  message : String
deriving DecidableEq, Repr

/-- `govQuarantine` from gov_quarantine.ts. Externally supplied:
`skillFound` (`findSkillByKey`), `scanFindings`/`scannedFiles`/
`scanDuration` (`scanSkill` on the file system), `freshId`
(`generateEvidenceId`), `scanNow`/`qTimestamp` (`nowISO`), `authorized`
(`requireAuthWithTest` verdict), `backupPath` (the backup phase). Note the
source saves the evidence record before consulting authorization. -/
def govQuarantine (sha256 : String → String) (skillKey : String)
    (skillFound : Option DiscoveredSkill) (scanFindings : List Finding)
    (scannedFiles scanDuration : Nat) (freshId scanNow : String)
    (authorized : Bool) (qTimestamp backupPath : String) (st : GovState) :
    GovQuarantineResult × GovState :=
  match isQuarantined skillKey st.config with
  | some existing =>
    ( { success := false
      , skillKey := skillKey
      , message := "Skill \"" ++ skillKey ++ "\" is already quarantined (since "
          ++ existing.timestamp ++ ")" }
    , st )
  | none =>
    match skillFound with
    | none =>
      ( { success := false
        , skillKey := skillKey
        , message := "Skill \"" ++ skillKey ++ "\" not found in any source" }
      , st )
    | some skill =>
      let scanResult : ScanResult :=
        { skill := skill, findings := scanFindings
        , scannedFiles := scannedFiles, scanDuration := scanDuration }
      let assessment := assessRisk scanResult.findings
      let evidence := generateEvidence sha256 scanResult assessment freshId scanNow
      let st1 : GovState := { st with evidences := st.evidences ++ [evidence] }
      if authorized then
        let rq := quarantineSkill skillKey evidence.id
          ("Manual quarantine: " ++ riskLevelName assessment.level ++ " risk")
          qTimestamp backupPath st1.config
        ( { success := rq.1.success
          , skillKey := skillKey
          , message := rq.1.message
          , evidenceId := some evidence.id
          , backupPath := rq.1.backupPath }
        , { st1 with config := rq.2 } )
      else
        ( { success := false
          , skillKey := skillKey
          , message := "Quarantine cancelled: authorization denied"
          , evidenceId := some evidence.id }
        , st1 )

/-- `govRestore` from gov_restore.ts (the `loadEvidence` call there is a
read used only for console display and does not touch state). -/
def govRestore (skillKey : String) (authorized : Bool) (st : GovState) :
    GovRestoreResult × GovState :=
  match isQuarantined skillKey st.config with
  | none =>
    ( { success := false
      , skillKey := skillKey
      , message := "Skill \"" ++ skillKey ++ "\" is not quarantined" }
    , st )
  | some quarantine =>
    if authorized then
      let rr := restoreSkill skillKey st.config
      ( { success := rr.1.success
        , skillKey := skillKey
        , message := rr.1.message
        , previousQuarantine := some quarantine }
      , { st with config := rr.2 } )
    else
      ( { success := false
        , skillKey := skillKey
        , message := "Restore cancelled: authorization denied"
        , previousQuarantine := some quarantine }
      , st )

/-- `govAllow` from gov_allow.ts (`findSkillByKey` there only feeds
console output and is omitted). Note the absence of any quarantine check. -/
def govAllow (skillKey : String) (authorized : Bool) (st : GovState) :
    GovAllowResult × GovState :=
  if isAllowlisted skillKey st.config then
    ( { success := false
      , skillKey := skillKey
      , message := "Skill \"" ++ skillKey ++ "\" is already allowlisted" }
    , st )
  else if authorized then
    let ra := allowlistSkill skillKey st.config
    ( { success := ra.1.success
      , skillKey := skillKey
      , message := ra.1.message }
    , { st with config := ra.2 } )
  else
    ( { success := false
      , skillKey := skillKey
      , message := "Allowlist cancelled: authorization denied" }
    , st )

/-! ## Specification-side definition for the refinement claim C2 -/

/-- Modelled from the claim's words: level and action determined by the
first matching rule of the stated priority order, over the final score. -/
def specLevelAction (findings : List Finding) (score : Nat) :
    RiskLevel × RecommendedAction :=
  if findings.any (fun f => f.severity = .CRITICAL) ∨ 200 ≤ score then
    (.CRITICAL, .quarantine)
  else if 2 ≤ (findings.filter (fun f => f.severity = .HIGH)).length ∨ 100 ≤ score then
    (.HIGH, .disable)
  else if 1 ≤ (findings.filter (fun f => f.severity = .HIGH)).length ∨ 40 ≤ score then
    (.MEDIUM, .warn)
  else if 0 < score then
    (.LOW, .log)
  else
    (.SAFE, .none)

/-! ## Concrete fixtures for witnesses and counterexamples -/

/-- A concrete quarantine block. -/
def qInfoFix : QuarantineInfo :=
  { timestamp := "2026-02-21T00:00:00Z"
  , reason := "CRITICAL: curl|bash detected"
  , evidenceId := "ev-12345678"
  , backupPath := some "~/.openclaw/quarantine/s-1" }

/-- A concrete quarantined entry carrying every kind of sibling field. -/
def entryQuarantinedFix : SkillEntry :=
  { enabled := some false
  , path := some "/skills/s"
  , _quarantine := some qInfoFix
  , _allowlisted := none
  , extra := [("note", "n")] }

/-- A concrete store document with a quarantined entry, a second entry,
skill dirs, and an unrelated top-level key. -/
def cfgQuarantinedFix : OpenClawConfig :=
  { skills := some
      { dirs := some ["/opt/skills"]
      , entries := some
          [ ("s", entryQuarantinedFix)
          , ("other", { enabled := some true }) ] }
  , extra := [("version", "1.0")] }

/-- A concrete discovered skill whose metadata declares a `curl` install
hook and nothing else. -/
def skillInstallFix : DiscoveredSkill :=
  { skillKey := "s"
  , path := "/skills/s"
  , source := .managed
  , metadata := some { openclaw := some { install := some "curl" } } }

/-! ## Helper lemmas -/

/-- Folding `acc + weight` equals the starting value plus the sum of weights. -/
theorem baseScore_foldl_eq (l : List Finding) (n : Nat) :
    l.foldl (fun acc f => acc + SEVERITY_WEIGHTS f.severity) n
      = n + (l.map (fun f => SEVERITY_WEIGHTS f.severity)).sum := by
  induction l generalizing n with
  | nil => simp
  | cons f fs ih => simp [ih, Nat.add_assoc]

/-- `baseScoreOf` as a sum over the severity-weight image. -/
theorem baseScoreOf_eq_sum (l : List Finding) :
    baseScoreOf l = (l.map (fun f => SEVERITY_WEIGHTS f.severity)).sum := by
  simpa using baseScore_foldl_eq l 0

/-- Two fold steps that agree pointwise give equal folds. -/
theorem foldl_ext_fun {α β : Type} (f g : α → β → α) (h : ∀ a b, f a b = g a b) :
    ∀ (l : List β) (a : α), l.foldl f a = l.foldl g a := by
  intro l
  induction l with
  | nil => intro a; rfl
  | cons b bs ih => intro a; simp only [List.foldl_cons, h]; exact ih _

/-- The combos and score components of the combo fold do not depend on the
reasons component of the accumulator. -/
theorem comboFold_proj (mr : List String) (cs : List ComboDefinition)
    (c0 : List ComboMatch) (s0 : Nat) (r0 r1 : List String) :
    (cs.foldl (comboStep mr) (c0, s0, r0)).1
        = (cs.foldl (comboStep mr) (c0, s0, r1)).1
      ∧ (cs.foldl (comboStep mr) (c0, s0, r0)).2.1
        = (cs.foldl (comboStep mr) (c0, s0, r1)).2.1 := by
  induction cs generalizing c0 s0 r0 r1 with
  | nil => exact ⟨rfl, rfl⟩
  | cons c cs ih =>
    simp only [List.foldl_cons, comboStep]
    split
    · exact ih _ _ _ _
    · exact ih _ _ _ _

/-- `comboStep` depends on the matched-rule set only through membership. -/
theorem comboStep_congr (mr1 mr2 : List String)
    (h : ∀ r, mr1.contains r = mr2.contains r) :
    ∀ acc combo, comboStep mr1 acc combo = comboStep mr2 acc combo := by
  intro acc combo
  unfold comboStep
  rw [List.filter_congr (fun x _ => h x)]

/-- In-place update: looking up the updated key finds the new entry. -/
theorem find?_update_self (es : List (String × SkillEntry)) (k : String)
    (e : SkillEntry) (h : es.any (fun p => p.1 = k) = true) :
    (es.map (fun p => if p.1 = k then (k, e) else p)).find? (fun p => p.1 = k)
      = some (k, e) := by
  induction es with
  | nil => simp at h
  | cons p ps ih =>
    by_cases hp : p.1 = k
    · simp [hp, List.find?]
    · have h2 : ps.any (fun p => p.1 = k) = true := by
        simpa [List.any_cons, hp] using h

      simp [hp, List.find?, ih h2]

/-- Appending a fresh binding: looking up its key finds it. -/
theorem find?_append_self (es : List (String × SkillEntry)) (k : String)
    (e : SkillEntry) (h : es.any (fun p => p.1 = k) = false) :
    ((es ++ [(k, e)]).find? (fun p => p.1 = k)) = some (k, e) := by
  induction es with
  | nil => simp [List.find?]
  | cons p ps ih =>
    have hp : ¬(p.1 = k) := by
      intro hk
      simp [List.any_cons, hk] at h
    have h2 : ps.any (fun p => p.1 = k) = false := by
      simpa [List.any_cons, hp] using h
    simp [List.find?, hp, ih h2]

/-- `setEntry` makes the written entry the one found under its key. -/
theorem find?_setEntry_self (es : List (String × SkillEntry)) (k : String)
    (e : SkillEntry) :
    (setEntry es k e).find? (fun p => p.1 = k) = some (k, e) := by
  unfold setEntry
  by_cases h : es.any (fun p => p.1 = k) = true
  · rw [if_pos h]
    exact find?_update_self es k e h
  · rw [if_neg h]
    exact find?_append_self es k e (Bool.eq_false_iff.mpr h)

/-- `setEntry` leaves lookups of every other key unchanged. -/
theorem find?_setEntry_other (es : List (String × SkillEntry)) (k k' : String)
    (e : SkillEntry) (hne : k' ≠ k) :
    (setEntry es k e).find? (fun p => p.1 = k')
      = es.find? (fun p => p.1 = k') := by
  unfold setEntry
  by_cases h : es.any (fun p => p.1 = k) = true
  · rw [if_pos h]
    clear h
    induction es with
    | nil => rfl
    | cons p ps ih =>
      by_cases hp : p.1 = k
      · have hk2 : ¬((k : String) = k') := fun hh => hne hh.symm
        have hp2 : ¬(p.1 = k') := by rw [hp]; exact hk2
        simp [hp, List.find?, hk2, hp2, ih]
      · simp only [List.map_cons, if_neg hp]
        by_cases hp2 : p.1 = k' <;> simp [hp2, List.find?, ih]
  · rw [if_neg h]
    clear h
    induction es with
    | nil =>
      have hk2 : ¬((k : String) = k') := fun hh => hne hh.symm
      simp [List.find?, hk2]
    | cons p ps ih =>
      by_cases hp2 : p.1 = k' <;> simp [hp2, List.find?, ih]

/-- `lookupEntry` through the (possibly missing) skills/entries chain
equals lookup in the defaulted entries object. -/
theorem lookupEntry_eq (config : OpenClawConfig) (k : String) :
    lookupEntry config k
      = ((entriesOf config).find? (fun p => p.1 = k)).map (fun p => p.2) := by
  obtain ⟨sk, ex⟩ := config
  cases sk with
  | none => rfl
  | some s =>
    obtain ⟨d, es⟩ := s
    cases es with
    | none => rfl
    | some es => rfl

/-- `lookupEntry` after `setConfigEntries` is lookup in the written list. -/
theorem lookupEntry_setConfigEntries (config : OpenClawConfig)
    (es : List (String × SkillEntry)) (k : String) :
    lookupEntry (setConfigEntries config es) k
      = (es.find? (fun p => p.1 = k)).map (fun p => p.2) := rfl

/-- Membership in an accumulating append fold. -/
theorem mem_foldl_append {α β : Type} (g : β → List α) (l : List β)
    (init : List α) (a : α) :
    a ∈ l.foldl (fun acc x => acc ++ g x) init ↔ a ∈ init ∨ ∃ x ∈ l, a ∈ g x := by
  induction l generalizing init with
  | nil => simp
  | cons x xs ih => simp [ih, List.mem_append, or_assoc]

/-- The rule loop of `scanFile` as an accumulating append fold. -/
theorem scanFileFindings_eq (relPath ext content : String)
    (matchesFor : Rule → List RegexMatch) :
    scanFileFindings relPath ext content matchesFor
      = DEFAULT_RULES.foldl
          (fun acc rule => acc ++
            (if ruleApplies rule ext then
              (matchesFor rule).map (findingOfMatch rule relPath content)
            else [])) [] := by
  unfold scanFileFindings
  refine foldl_ext_fun _ _ ?_ DEFAULT_RULES []
  intro acc rule
  by_cases h : ruleApplies rule ext <;> simp [h]

/-- Every finding a file scan produces has a positive (1-based) line. -/
theorem scanFileFindings_line_pos (relPath ext content : String)
    (matchesFor : Rule → List RegexMatch) :
    ∀ f ∈ scanFileFindings relPath ext content matchesFor, 1 ≤ f.line := by
  intro f hf
  rw [scanFileFindings_eq, mem_foldl_append] at hf
  rcases hf with hf | ⟨rule, _, hf⟩
  · simp at hf
  · by_cases h : ruleApplies rule ext
    · rw [if_pos h] at hf
      obtain ⟨m, _, rfl⟩ := List.mem_map.mp hf
      show 1 ≤ lineOfMatch content m.index
      unfold lineOfMatch
      omega
    · rw [if_neg h] at hf
      simp at hf

end SkillGate

namespace SkillGate

/-! ## Claim theorems -/

/-- C2: `assessRisk` determines level and action by the claimed priority
cascade over its final (combo-inclusive) score, and any CRITICAL finding
forces level CRITICAL regardless of total score. -/
theorem claim_C2_level_priority (findings : List Finding) :
    ((assessRisk findings).level, (assessRisk findings).action)
        = specLevelAction findings (assessRisk findings).score
      ∧ (findings.any (fun f => f.severity = .CRITICAL) = true →
          (assessRisk findings).level = RiskLevel.CRITICAL) := by
  constructor
  · rfl
  · intro h
    simp only [assessRisk, determineLevel]
    rw [if_pos (Or.inl h)]

/-- Witness for C2 at a concrete findings list with one CRITICAL finding. -/
theorem claim_C2_level_priority_witness :
    (assessRisk [{ rule := "curl-pipe-bash", severity := .CRITICAL, file := "a.sh"
                 , line := 1, matchText := "curl x | sh"
                 , description := "Remote code execution via curl pipe to shell" }]).level
      = RiskLevel.CRITICAL :=
  (claim_C2_level_priority _).2 (by decide)

/-- C6: `assessRisk`'s score and combos depend only on the multiset of
`(severity, ruleId)` pairs — permuting findings changes neither. -/
theorem claim_C6_order_independent (l1 l2 : List Finding)
    (h : (l1.map (fun f => (f.severity, f.rule))).Perm
           (l2.map (fun f => (f.severity, f.rule)))) :
    (assessRisk l1).score = (assessRisk l2).score
      ∧ (assessRisk l1).combos = (assessRisk l2).combos := by
  have hsev : (l1.map (fun f => f.severity)).Perm (l2.map (fun f => f.severity)) := by
    have hm := h.map Prod.fst
    simpa [List.map_map, Function.comp] using hm
  have hrule : ∀ r : String,
      r ∈ l1.map (fun f => f.rule) ↔ r ∈ l2.map (fun f => f.rule) := by
    intro r
    have hm := (h.map Prod.snd).mem_iff (a := r)
    simpa [List.map_map, Function.comp] using hm
  have hcont : ∀ r, (matchedRulesOf l1).contains r = (matchedRulesOf l2).contains r := by
    intro r
    refine Bool.eq_iff_iff.mpr ?_
    simpa [matchedRulesOf, List.elem_iff] using hrule r
  have hbase : baseScoreOf l1 = baseScoreOf l2 := by
    rw [baseScoreOf_eq_sum, baseScoreOf_eq_sum]
    refine List.Perm.sum_eq ?_
    have hm := hsev.map SEVERITY_WEIGHTS
    simpa [List.map_map, Function.comp] using hm
  have hfold : ∀ (c0 : List ComboMatch) (s0 : Nat) (r0 : List String),
      COMBOS.foldl (comboStep (matchedRulesOf l1)) (c0, s0, r0)
        = COMBOS.foldl (comboStep (matchedRulesOf l2)) (c0, s0, r0) := by
    intro c0 s0 r0
    exact foldl_ext_fun _ _ (comboStep_congr _ _ hcont) COMBOS (c0, s0, r0)
  constructor
  · calc (assessRisk l1).score
        = (COMBOS.foldl (comboStep (matchedRulesOf l1))
            ([], baseScoreOf l1, baseReasonsOf l1)).2.1 := rfl
      _ = (COMBOS.foldl (comboStep (matchedRulesOf l2))
            ([], baseScoreOf l2, baseReasonsOf l1)).2.1 := by rw [hbase, hfold]
      _ = (COMBOS.foldl (comboStep (matchedRulesOf l2))
            ([], baseScoreOf l2, baseReasonsOf l2)).2.1 :=
        (comboFold_proj _ _ _ _ _ _).2
      _ = (assessRisk l2).score := rfl
  · calc (assessRisk l1).combos
        = (COMBOS.foldl (comboStep (matchedRulesOf l1))
            ([], baseScoreOf l1, baseReasonsOf l1)).1 := rfl
      _ = (COMBOS.foldl (comboStep (matchedRulesOf l2))
            ([], baseScoreOf l2, baseReasonsOf l1)).1 := by rw [hbase, hfold]
      _ = (COMBOS.foldl (comboStep (matchedRulesOf l2))
            ([], baseScoreOf l2, baseReasonsOf l2)).1 :=
        (comboFold_proj _ _ _ _ _ _).1
      _ = (assessRisk l2).combos := rfl

/-- C1: every RedactedFinding generated by `generateEvidence` carries
`snippet_hash = "sha256:" ++ sha256(matched text)` (for any hash function,
so in particular for the real SHA-256 hex digest), and retains the
matched text only through that hash: replacing the matched text by any
text with the same hash leaves the redacted finding — hence the whole
evidence record and anything serialized from it — unchanged. -/
theorem claim_C1_redaction (sha256 : String → String) (scanResult : ScanResult)
    (assessment : RiskAssessment) (freshId now : String) :
    (generateEvidence sha256 scanResult assessment freshId now).findings
        = scanResult.findings.map (redactFinding sha256)
      ∧ (∀ f : Finding,
          (redactFinding sha256 f).snippet_hash = "sha256:" ++ sha256 f.matchText)
      ∧ (∀ (f : Finding) (t : String), sha256 t = sha256 f.matchText →
          redactFinding sha256 { f with matchText := t } = redactFinding sha256 f) := by
  refine ⟨rfl, fun f => rfl, fun f t h => ?_⟩
  simp [redactFinding, redactSnippet, h]

/-- Witness for C1: with a concrete (collision-heavy) hash function, two
findings differing only in matched text redact identically. -/
theorem claim_C1_redaction_witness :
    redactFinding (fun _ => "h")
        { rule := "r", severity := .LOW, file := "f", line := 1
        , matchText := "xyz", description := "d" }
      = redactFinding (fun _ => "h")
        { rule := "r", severity := .LOW, file := "f", line := 1
        , matchText := "abc", description := "d" } :=
  (claim_C1_redaction (fun _ => "h")
      { skill := { skillKey := "k", path := "p", source := .workspace }
      , findings := [], scannedFiles := 0, scanDuration := 0 }
      { level := .SAFE, score := 0, action := .none, reasons := [], combos := [] }
      "i" "t").2.2
    { rule := "r", severity := .LOW, file := "f", line := 1
    , matchText := "abc", description := "d" }
    "xyz" rfl

/-- C3: requesting quarantine of an already-quarantined skillKey returns
`success:false` and leaves the whole state — in particular the existing
quarantine block — unchanged. -/
theorem claim_C3_quarantine_idempotent (sha256 : String → String)
    (skillKey : String) (skillFound : Option DiscoveredSkill)
    (scanFindings : List Finding) (scannedFiles scanDuration : Nat)
    (freshId scanNow : String) (authorized : Bool) (qTimestamp backupPath : String)
    (st : GovState) (q : QuarantineInfo)
    (h : isQuarantined skillKey st.config = some q) :
    govQuarantine sha256 skillKey skillFound scanFindings scannedFiles scanDuration
        freshId scanNow authorized qTimestamp backupPath st
      = ( { success := false
          , skillKey := skillKey
          , message := "Skill \"" ++ skillKey ++ "\" is already quarantined (since "
              ++ q.timestamp ++ ")" }
        , st )
      ∧ isQuarantined skillKey
          (govQuarantine sha256 skillKey skillFound scanFindings scannedFiles
            scanDuration freshId scanNow authorized qTimestamp backupPath st).2.config
        = some q := by
  refine ⟨?_, ?_⟩ <;> simp [govQuarantine, h]

/-- Witness for C3 at a concrete quarantined store. -/
theorem claim_C3_quarantine_idempotent_witness :
    isQuarantined "s"
        ((govQuarantine (fun _ => "") "s" none [] 0 0 "i" "n" true "t" "b"
            { config := cfgQuarantinedFix, evidences := [] }).2).config
      = some qInfoFix :=
  (claim_C3_quarantine_idempotent (fun _ => "") "s" none [] 0 0 "i" "n" true "t" "b"
      { config := cfgQuarantinedFix, evidences := [] } qInfoFix (by decide)).2

/-- C5 (code bug): allowlisting a quarantined skill is accepted and leaves
the entry simultaneously `_allowlisted:true` and quarantined — no
rejection or flag anywhere in the flow. -/
theorem claim_C5_allowlist_quarantine_coexist :
    (govAllow "s" true { config := cfgQuarantinedFix, evidences := [] }).1.success = true
      ∧ isAllowlisted "s"
          (govAllow "s" true { config := cfgQuarantinedFix, evidences := [] }).2.config = true
      ∧ isQuarantined "s"
          (govAllow "s" true { config := cfgQuarantinedFix, evidences := [] }).2.config
        = some qInfoFix := by
  decide

/-- C4 (code bug): `saveEvidence` persists the single `<id>.json` document
and creates the storage location if absent, but issues a direct write of
the final path — its trace contains no rename — whereas the
`atomicWriteJson` helper (used for the config document, not here) does
write a temp file and rename it. -/
theorem claim_C4_saveEvidence_not_atomic (serializeEvidence : Evidence → String)
    (ev : Evidence) (filepath content : String) (tick : Nat) :
    saveEvidenceOps serializeEvidence ev
        = [ FsOp.mkdirRec EVIDENCE_DIR
          , FsOp.writeFileOp (EVIDENCE_DIR ++ "/" ++ ev.id ++ ".json")
              (serializeEvidence ev) ]
      ∧ (saveEvidenceOps serializeEvidence ev).filter FsOp.isRename = []
      ∧ (atomicWriteJsonOps filepath content tick).filter FsOp.isRename
          = [FsOp.renameOp (filepath ++ ".tmp." ++ toString tick) filepath] :=
  ⟨rfl, rfl, rfl⟩

/-- C8: every governance-store mutation (quarantine, restore, disable,
allowlist) is a whole-document read-modify-write that preserves the
top-level keys outside the `skills` subtree, for every starting document. -/
theorem claim_C8_preserves_unrelated_keys
    (skillKey evidenceId reason timestamp backupPath : String)
    (config : OpenClawConfig) :
    (quarantineSkill skillKey evidenceId reason timestamp backupPath config).2.extra
        = config.extra
      ∧ (restoreSkill skillKey config).2.extra = config.extra
      ∧ (disableSkill skillKey config).2.extra = config.extra
      ∧ (allowlistSkill skillKey config).2.extra = config.extra := by
  refine ⟨rfl, ?_, rfl, rfl⟩
  cases h : lookupEntry config skillKey with
  | none => simp [restoreSkill, h]
  | some entry => cases hq : entry._quarantine <;>
      simp [restoreSkill, h, hq, setConfigEntries]

/-- C9 counterexample: with authorization denied, `govQuarantine` returns
the denial result yet evidence storage has already been modified — the
evidence record generated for the request was saved before the
authorization check. -/
theorem claim_C9_denial_modifies_evidence :
    (govQuarantine (fun _ => "h") "s" (some skillInstallFix) [] 0 0 "ev-1" "t0"
        false "t1" "b" { config := {}, evidences := [] }).1.message
      = "Quarantine cancelled: authorization denied"
      ∧ (govQuarantine (fun _ => "h") "s" (some skillInstallFix) [] 0 0 "ev-1" "t0"
          false "t1" "b" { config := {}, evidences := [] }).2.evidences
        ≠ ([] : List Evidence) := by
  decide

/-- C9 amended: on authorization denial every governance command returns a
normal negative result and the governance store is unmodified; `govRestore`
and `govAllow` modify nothing at all, but `govQuarantine` has already
generated and persisted the evidence record before consulting
authorization, so the evidence store retains exactly that record. -/
theorem claim_C9_denial_amended (sha256 : String → String) (skillKey : String)
    (skill : DiscoveredSkill) (scanFindings : List Finding)
    (scannedFiles scanDuration : Nat) (freshId scanNow qTimestamp backupPath : String)
    (st : GovState) (hq : isQuarantined skillKey st.config = none) :
    govQuarantine sha256 skillKey (some skill) scanFindings scannedFiles scanDuration
        freshId scanNow false qTimestamp backupPath st
      = ( { success := false
          , skillKey := skillKey
          , message := "Quarantine cancelled: authorization denied"
          , evidenceId := some freshId }
        , { config := st.config
          , evidences := st.evidences ++
              [ generateEvidence sha256
                  { skill := skill, findings := scanFindings
                  , scannedFiles := scannedFiles, scanDuration := scanDuration }
                  (assessRisk scanFindings) freshId scanNow ] } )
    ∧ (∀ (k : String) (s : GovState),
        (govRestore k false s).2 = s ∧ (govRestore k false s).1.success = false)
    ∧ (∀ (k : String) (s : GovState),
        (govAllow k false s).2 = s ∧ (govAllow k false s).1.success = false) := by
  refine ⟨?_, ?_, ?_⟩
  · simp [govQuarantine, hq, generateEvidence]
  · intro k s
    cases h : isQuarantined k s.config <;> simp [govRestore, h]
  · intro k s
    cases h : isAllowlisted k s.config <;> simp [govAllow, h]

/-- Witness for the amended C9 at a concrete empty store. -/
theorem claim_C9_denial_amended_witness :
    (govRestore "k" false { config := {}, evidences := [] }).2
        = { config := {}, evidences := [] }
      ∧ (govRestore "k" false { config := {}, evidences := [] }).1.success = false :=
  (claim_C9_denial_amended (fun _ => "h") "s" skillInstallFix [] 0 0 "i" "n" "t" "b"
      { config := {}, evidences := [] } (by decide)).2.1 "k"
    { config := {}, evidences := [] }

/-- C7: on a store whose entry for `skillKey` is quarantined, restore
removes exactly the quarantine block and sets `enabled:true`, leaving the
entry's other fields, every other entry, `skills.dirs` and every other
top-level key unchanged; on an absent or non-quarantined entry it fails
with a descriptive message and changes nothing. -/
theorem claim_C7_restore_frame (config : OpenClawConfig) (skillKey : String) :
    (∀ entry q, lookupEntry config skillKey = some entry →
      entry._quarantine = some q →
        (restoreSkill skillKey config).1
            = { success := true, skillKey := skillKey, configUpdated := true
              , message := "Restored \"" ++ skillKey
                  ++ "\". Changes take effect after restart." }
          ∧ lookupEntry (restoreSkill skillKey config).2 skillKey
              = some { entry with _quarantine := none, enabled := some true }
          ∧ (∀ k, k ≠ skillKey →
              lookupEntry (restoreSkill skillKey config).2 k = lookupEntry config k)
          ∧ (restoreSkill skillKey config).2.extra = config.extra
          ∧ (restoreSkill skillKey config).2.skills.map (fun s => s.dirs)
              = config.skills.map (fun s => s.dirs))
    ∧ (lookupEntry config skillKey = none →
        restoreSkill skillKey config
          = ( { success := false, skillKey := skillKey, configUpdated := false
              , message := "Skill \"" ++ skillKey ++ "\" not found in config" }
            , config ))
    ∧ (∀ entry, lookupEntry config skillKey = some entry →
        entry._quarantine = none →
          restoreSkill skillKey config
            = ( { success := false, skillKey := skillKey, configUpdated := false
                , message := "Skill \"" ++ skillKey ++ "\" is not quarantined" }
              , config )) := by
  refine ⟨?_, ?_, ?_⟩
  · intro entry q hlook hq
    have hres : restoreSkill skillKey config
        = ( { success := true, skillKey := skillKey, configUpdated := true
            , message := "Restored \"" ++ skillKey
                ++ "\". Changes take effect after restart." }
          , setConfigEntries config
              (setEntry (entriesOf config) skillKey
                { entry with _quarantine := none, enabled := some true }) ) := by
      simp [restoreSkill, hlook, hq]
    refine ⟨?_, ?_, ?_, ?_, ?_⟩
    · rw [hres]
    · rw [hres]
      simp [lookupEntry_setConfigEntries, find?_setEntry_self]
    · intro k hk
      rw [hres]
      rw [lookupEntry_setConfigEntries, find?_setEntry_other _ _ _ _ hk,
        ← lookupEntry_eq]
    · rw [hres]
      rfl
    · rw [hres]
      have hsome : ∃ s, config.skills = some s := by
        cases hsk : config.skills with
        | none => simp [lookupEntry, hsk] at hlook
        | some s => exact ⟨s, rfl⟩
      obtain ⟨s, hsk⟩ := hsome
      simp [setConfigEntries, hsk]
  · intro hlook
    simp [restoreSkill, hlook]
  · intro entry hlook hq
    simp [restoreSkill, hlook, hq]

/-- Witness for C7 at the concrete quarantined store: the quarantine block
is gone, the entry re-enabled with its other fields kept, and the sibling
entry untouched. -/
theorem claim_C7_restore_frame_witness :
    lookupEntry (restoreSkill "s" cfgQuarantinedFix).2 "s"
        = some { entryQuarantinedFix with _quarantine := none, enabled := some true }
      ∧ lookupEntry (restoreSkill "s" cfgQuarantinedFix).2 "other"
        = lookupEntry cfgQuarantinedFix "other" :=
  ⟨((claim_C7_restore_frame cfgQuarantinedFix "s").1 entryQuarantinedFix qInfoFix
      (by decide) (by decide)).2.1
  , ((claim_C7_restore_frame cfgQuarantinedFix "s").1 entryQuarantinedFix qInfoFix
      (by decide) (by decide)).2.2.1 "other" (by decide)⟩

/-- Witness for C6 at a concrete two-element findings list and its swap. -/
theorem claim_C6_order_independent_witness :
    (assessRisk
        [ { rule := "hardcoded-token", severity := .HIGH, file := "a.js"
          , line := 1, matchText := "k", description := "d1" }
        , { rule := "network-request", severity := .LOW, file := "b.js"
          , line := 2, matchText := "f", description := "d2" } ]).score
      = (assessRisk
        [ { rule := "network-request", severity := .LOW, file := "b.js"
          , line := 2, matchText := "f", description := "d2" }
        , { rule := "hardcoded-token", severity := .HIGH, file := "a.js"
          , line := 1, matchText := "k", description := "d1" } ]).score :=
  (claim_C6_order_independent _ _ (by decide)).1

/-- C10 counterexample: scanning a skill whose metadata install command
mentions `curl` produces the metadata-install-download finding with
`line = 0`, so not every finding of `scanSkill` has a 1-based line. -/
theorem claim_C10_metadata_line_zero :
    ¬ (∀ f ∈ scanSkillFindings skillInstallFix [] (fun _ _ => []), 1 ≤ f.line) := by
  decide

/-- C10 amended: every finding produced by file scanning has a 1-based
line number (`line ≥ 1`), computed by counting newlines up to the match
offset; the metadata-install-download finding produced from the declared
install command is the exception and carries `line = 0`. -/
theorem claim_C10_line_amended :
    (∀ (relPath ext content : String) (matchesFor : Rule → List RegexMatch),
      ∀ f ∈ scanFileFindings relPath ext content matchesFor, 1 ≤ f.line)
    ∧ (∀ (rule : Rule) (relPath content : String) (m : RegexMatch),
        (findingOfMatch rule relPath content m).line
          = ((content.toList.take m.index).filter (fun c => c = '\n')).length + 1)
    ∧ (∀ (skill : DiscoveredSkill) (files : List SkillFile)
        (matchesFor : SkillFile → Rule → List RegexMatch),
        ∀ f ∈ scanSkillFindings skill files matchesFor,
          1 ≤ f.line ∨ (f.rule = "metadata-install-download" ∧ f.line = 0)) := by
  refine ⟨fun relPath ext content matchesFor =>
      scanFileFindings_line_pos relPath ext content matchesFor
    , fun rule relPath content m => rfl, ?_⟩
  intro skill files matchesFor f hf
  have hfile : ∀ g ∈ files.foldl
      (fun acc file =>
        acc ++ scanFileFindings file.relPath file.ext file.content (matchesFor file))
      [], 1 ≤ g.line := by
    intro g hg
    rw [mem_foldl_append] at hg
    rcases hg with hg | ⟨file, _, hg⟩
    · simp at hg
    · exact scanFileFindings_line_pos _ _ _ _ g hg
  cases hinst : (skill.metadata.bind (fun m => m.openclaw)).bind (fun o => o.install) with
  | none =>
    simp only [scanSkillFindings, hinst] at hf
    exact Or.inl (hfile f hf)
  | some cmd =>
    simp only [scanSkillFindings, hinst] at hf
    split at hf
    · rcases List.mem_append.mp hf with hf2 | hf2
      · exact Or.inl (hfile f hf2)
      · rcases List.mem_singleton.mp hf2 with rfl
        exact Or.inr ⟨rfl, rfl⟩
    · exact Or.inl (hfile f hf)

/-- Witness for the amended C10: the metadata finding of the concrete
`curl`-install skill satisfies the stated disjunction. -/
theorem claim_C10_line_amended_witness :
    1 ≤ ({ rule := "metadata-install-download", severity := Severity.HIGH
         , file := "skill.json", line := 0, matchText := "curl"
         , description := "Install hook downloads external content" } : Finding).line
      ∨ (({ rule := "metadata-install-download", severity := Severity.HIGH
          , file := "skill.json", line := 0, matchText := "curl"
          , description := "Install hook downloads external content" } : Finding).rule
            = "metadata-install-download"
        ∧ ({ rule := "metadata-install-download", severity := Severity.HIGH
           , file := "skill.json", line := 0, matchText := "curl"
           , description := "Install hook downloads external content" } : Finding).line
            = 0) :=
  claim_C10_line_amended.2.2 skillInstallFix [] (fun _ _ => [])
    { rule := "metadata-install-download", severity := Severity.HIGH
    , file := "skill.json", line := 0, matchText := "curl"
    , description := "Install hook downloads external content" }
    (by decide)

end SkillGate
